import Mathlib

/-!
Shallow embedding of the authentication and user-management core of the
movie_api repository (files passport.js, auth.js, models.js), together with
theorems settling the frozen claims about it.

Conventions of the embedding:
  - A mongoose document store is a plain list of user records; `findOne`,
    `findById`, `findOneAndUpdate`, `findOneAndDelete` act on the first
    record matching the query, as mongoose does.
  - bcrypt is an external library, so `bcrypt.hashSync` and
    `bcrypt.compareSync` are parameters of the functions that call them
    (`bcryptHashSync : String → Nat → String`,
     `bcryptCompareSync : String → String → Bool`).
  - A JSON web token signed by `jwt.sign` is represented by the record of
    its claims together with the algorithm and the secret it was signed
    with; verification succeeds exactly when the verifying key equals the
    signing secret and the expiry lies in the future, which is the standard
    unforgeability abstraction of an HMAC signature.
  - Machine time is a natural number of seconds.
-/

/-- User record following userSchema in models.js: Username, Password
(the stored bcrypt digest), Email, Birthday, FavoriteMovies, plus the
store-assigned document id. -/
structure User where
  _id : Nat
  Username : String
  Password : String
  Email : String
  Birthday : Option String := none
  FavoriteMovies : List String := []
deriving Repr, DecidableEq

/-- mongoose toJSON on a user document returns all stored fields, the
Password digest and the _id included; on this embedding it is the
identity. -/
def User.toJSON (u : User) : User := u

/-- userSchema.methods.validatePassword from models.js:
bcrypt.compareSync(password, this.Password). -/
def validatePassword (bcryptCompareSync : String → String → Bool)
    (user : User) (password : String) : Bool :=
  bcryptCompareSync password user.Password

/-- userSchema.statics.hashedPassword from models.js:
bcrypt.hashSync(password, 10). -/
def usersHashedPassword (bcryptHashSync : String → Nat → String)
    (password : String) : String :=
  bcryptHashSync password 10

/-- Users.findOne with query on Username: first record whose Username
equals the queried one. -/
def findOneByUsername (store : List User) (username : String) : Option User :=
  store.find? (fun u => u.Username == username)

/-- Users.findById: first record whose _id equals the queried one. -/
def findById (store : List User) (id : Nat) : Option User :=
  store.find? (fun u => u._id == id)

/-- Outcome a passport strategy delivers through its callback:
callback(error), callback(null, false, info) carrying info.message, or
callback(null, user). -/
inductive StrategyResult where
  | error (err : String)
  | fail (message : String)
  | ok (user : User)
deriving Repr, DecidableEq

/-- Message passed by passport.js when Users.findOne returns no record. -/
def incorrectUsernameMsg : String := "Incorrect username or password."

/-- Message passed by passport.js when validatePassword rejects. -/
def incorrectPasswordMsg : String := "Incorrect password."

/-- Verify callback of the LocalStrategy in passport.js, taking the result
of the Users.findOne promise: a store error reaches the catch branch and
becomes callback(error); a missing record becomes a failure with
incorrectUsernameMsg; a record failing validatePassword becomes a failure
with incorrectPasswordMsg; otherwise callback(null, user). -/
def localVerify (bcryptCompareSync : String → String → Bool)
    (lookup : Except String (Option User)) (password : String) : StrategyResult :=
  match lookup with
  | .error e => .error e
  | .ok none => .fail incorrectUsernameMsg
  | .ok (some user) =>
      if validatePassword bcryptCompareSync user password = false then
        .fail incorrectPasswordMsg
      else
        .ok user

/-- The LocalStrategy run against a healthy store: one Users.findOne by
Username, then the verify callback. -/
def localStrategy (bcryptCompareSync : String → String → Bool)
    (store : List User) (username password : String) : StrategyResult :=
  localVerify bcryptCompareSync (Except.ok (findOneByUsername store username)) password

/-- The LocalStrategy instrumented with the number of store lookups and of
validatePassword calls it performs: the body of the verify callback calls
Users.findOne once, and validatePassword exactly once when a record was
found. -/
def localStrategyTrace (bcryptCompareSync : String → String → Bool)
    (store : List User) (username password : String) : StrategyResult × Nat × Nat :=
  match findOneByUsername store username with
  | none => (.fail incorrectUsernameMsg, 1, 0)
  | some user =>
      if validatePassword bcryptCompareSync user password = false then
        (.fail incorrectPasswordMsg, 1, 1)
      else
        (.ok user, 1, 1)

/-- The hard-coded signing secret of auth.js and passport.js. -/
def jwtSecret : String := "your_jwt_secret"

/-- Seconds denoted by the expiresIn value 7d. -/
def sevenDaysSeconds : Nat := 7 * 24 * 60 * 60

/-- A signed token as produced by jwt.sign: the claims payload, the
subject, issuance and expiry times, and the algorithm and secret the
signature was made with. -/
structure JwtToken where
  payload : User
  sub : String
  iat : Nat
  exp : Nat
  alg : String
  secret : String
deriving Repr, DecidableEq

/-- generateJWTToken from auth.js: jwt.sign(user, jwtSecret) with subject
user.Username, expiresIn 7d and algorithm HS256. -/
def generateJWTToken (user : User) (now : Nat) : JwtToken :=
  { payload := user
    sub := user.Username
    iat := now
    exp := now + sevenDaysSeconds
    alg := "HS256"
    secret := jwtSecret }

/-- jwt.verify as performed by passport-jwt with secretOrKey: the payload
is released exactly when the verifying key equals the signing secret and
the token is not yet expired. -/
def jwtVerify (token : JwtToken) (secretOrKey : String) (now : Nat) : Option User :=
  if token.secret = secretOrKey ∧ now < token.exp then some token.payload else none

/-- Outcome of passport.authenticate for a bearer-protected route: a 401
rejection, a resolved user handed to the route handler, or a strategy
error. -/
inductive BearerOutcome where
  | unauthorized
  | success (user : User)
  | error (err : String)
deriving Repr, DecidableEq

/-- How passport interprets the JWTStrategy verify callback arguments
callback(error) and callback(null, user): an error is an error, a falsy
user is an authentication failure answered with 401, a truthy user is
success. -/
def passportInterpret : Except String (Option User) → BearerOutcome
  | .error e => .error e
  | .ok none => .unauthorized
  | .ok (some user) => .success user

/-- Verify callback of the JWTStrategy in passport.js applied to the result
of the Users.findById promise: the user found (possibly null) is passed
through as callback(null, user); a store error becomes callback(error). -/
def jwtVerifyCallback (lookup : Except String (Option User)) : BearerOutcome :=
  passportInterpret lookup

/-- The bearer authentication pipeline of passport.js on a healthy store:
verify the token against the fixed secret, then Users.findById on the _id
claim of the payload, then the passport interpretation of the callback. -/
def jwtStrategyAuthenticate (store : List User) (token : JwtToken) (now : Nat) :
    BearerOutcome :=
  match jwtVerify token jwtSecret now with
  | none => .unauthorized
  | some payload => jwtVerifyCallback (Except.ok (findById store payload._id))

/-- Response of the login endpoint: a status with a JSON message body, a
JSON body carrying the user and the freshly signed token, or no response
at all because the handler threw before writing one. -/
inductive LoginResponse where
  | msg (status : Nat) (message : String)
  | userToken (status : Nat) (user : User) (token : JwtToken)
  | crash
deriving Repr, DecidableEq

/-- Body of the passport.authenticate callback in auth.js after the opening
console.log, on arguments error, user and info.message: the failure
branches compare info.message against the literals of auth.js lines 23 and
27 and fall through to the generic message; the success branch issues the
token over user.toJSON() and answers 200. -/
def loginResponder (now : Nat) (error : Option String) (user : Option User)
    (info : Option String) : LoginResponse :=
  if error.isSome || user.isNone then
    if info = some "Incorrect password" then
      .msg 400 "Incorrect password"
    else if info = some "User not found" then
      .msg 400 "User not found"
    else
      .msg 400 "Something is not right"
  else
    match user with
    | some u => .userToken 200 u (generateJWTToken (User.toJSON u) now)
    | none => .msg 400 "Something is not right"

/-- The POST /login callback of auth.js applied to a strategy outcome. Its
first statement logs info.message; when the strategy succeeds or errors,
passport passes no info argument, so reading info.message throws a
TypeError before any response is written, modelled as crash. Only the
classified failures, which do carry an info object, reach the response
logic. -/
def loginHandler (now : Nat) : StrategyResult → LoginResponse
  | .error _ => .crash
  | .ok _ => .crash
  | .fail m => loginResponder now none none (some m)

/-- The whole /login flow: LocalStrategy over the store, then the auth.js
callback. -/
def loginRoute (bcryptCompareSync : String → String → Bool) (store : List User)
    (now : Nat) (username password : String) : LoginResponse :=
  loginHandler now (localStrategy bcryptCompareSync store username password)

/-- Response of a user-management route in models.js: res.send text,
res.json of one document, res.json of a document list, or the 422
validation-errors body. -/
inductive ApiResponse where
  | text (status : Nat) (body : String)
  | jsonUser (status : Nat) (user : User)
  | jsonUsers (status : Nat) (users : List User)
  | jsonErrors (status : Nat)
deriving Repr, DecidableEq

/-- An Express route registration: method, path and whether a
passport.authenticate jwt middleware guards it. -/
structure Route where
  method : String
  path : String
  usesJwtAuth : Bool
deriving Repr, DecidableEq

/-- app.get on /users is registered with no authentication middleware. -/
def getUsersRoute : Route := { method := "GET", path := "/users", usesJwtAuth := false }

/-- app.put on /users/:Username is guarded by the jwt strategy. -/
def putUserRoute : Route :=
  { method := "PUT", path := "/users/:Username", usesJwtAuth := true }

/-- app.delete on /users/:Username is guarded by the jwt strategy. -/
def deleteUserRoute : Route :=
  { method := "DELETE", path := "/users/:Username", usesJwtAuth := true }

/-- app.post on /users/:Username/movies/:MovieID is guarded by the jwt
strategy. -/
def addFavoriteRoute : Route :=
  { method := "POST", path := "/users/:Username/movies/:MovieID", usesJwtAuth := true }

/-- app.delete on /users/:Username/movies/:MovieID is guarded by the jwt
strategy. -/
def removeFavoriteRoute : Route :=
  { method := "DELETE", path := "/users/:Username/movies/:MovieID", usesJwtAuth := true }

/-- GET /users handler: Users.find() resolving to the full document list
answers 201 with that list verbatim, Password digests included; a store
error answers 500. -/
def getUsersHandler : Except String (List User) → ApiResponse
  | .ok users => .jsonUsers 201 users
  | .error e => .text 500 ("Error: " ++ e)

/-- Request body of POST /users and PUT /users/:Username. -/
structure RegisterBody where
  Username : String
  Password : String
  Email : String
  Birthday : Option String := none
deriving Repr, DecidableEq

/-- POST /users handler: after express-validator (summarised by
validationPassed), hash the submitted password with
Users.hashedPassword, reject an already-present Username with 400, and
otherwise create the record with the hashed Password and answer 201. -/
def registerHandler (bcryptHashSync : String → Nat → String) (store : List User)
    (body : RegisterBody) (validationPassed : Bool) (newId : Nat) :
    ApiResponse × List User :=
  if !validationPassed then
    (.jsonErrors 422, store)
  else
    let hashedPassword := usersHashedPassword bcryptHashSync body.Password
    match findOneByUsername store body.Username with
    | some _ => (.text 400 (body.Username ++ " already exists"), store)
    | none =>
        let newUser : User :=
          { _id := newId
            Username := body.Username
            Password := hashedPassword
            Email := body.Email
            Birthday := body.Birthday
            FavoriteMovies := [] }
        (.jsonUser 201 newUser, store ++ [newUser])

/-- mongoose findOneAndUpdate with new true: update the first record
matching the predicate and return the updated document, or null when no
record matches. -/
def findOneAndUpdate (p : User → Bool) (f : User → User) :
    List User → Option User × List User
  | [] => (none, [])
  | u :: rest =>
      if p u then
        (some (f u), f u :: rest)
      else
        let r := findOneAndUpdate p f rest
        (r.1, u :: r.2)

/-- mongoose findOneAndDelete: remove the first record matching the
predicate and return it, or null when no record matches. -/
def findOneAndDelete (p : User → Bool) : List User → Option User × List User
  | [] => (none, [])
  | u :: rest =>
      if p u then
        (some u, rest)
      else
        let r := findOneAndDelete p rest
        (r.1, u :: r.2)

/-- The $set document of the PUT /users/:Username handler in the
claim-referenced models.js routes: Username, Email and Birthday from the
body, and Password set to req.body.Password verbatim, the hashing call
being commented out. -/
def setUserFields (body : RegisterBody) (u : User) : User :=
  { u with
      Username := body.Username
      Password := body.Password
      Email := body.Email
      Birthday := body.Birthday }

/-- PUT /users/:Username handler: 422 on validation errors, 401 when the
authenticated Username differs from the target, otherwise
findOneAndUpdate with the $set document, answering 200 with the updated
document or 404 when no record matched. -/
def putUserHandler (authedUser : User) (store : List User) (target : String)
    (body : RegisterBody) (validationPassed : Bool) : ApiResponse × List User :=
  if !validationPassed then
    (.jsonErrors 422, store)
  else if authedUser.Username ≠ target then
    (.text 401 "Unauthorized", store)
  else
    match findOneAndUpdate (fun u => u.Username == target) (setUserFields body) store with
    | (some updatedUser, newStore) => (.jsonUser 200 updatedUser, newStore)
    | (none, newStore) => (.text 404 "User not found", newStore)

/-- DELETE /users/:Username handler: findOneAndDelete on the target
Username; 400 when nothing was found, 200 otherwise. The authenticated
user is in scope as req.user but never read. -/
def deleteUserHandler (authedUser : User) (store : List User) (target : String) :
    ApiResponse × List User :=
  match findOneAndDelete (fun u => u.Username == target) store with
  | (none, newStore) => (.text 400 (target ++ " was not found."), newStore)
  | (some _, newStore) => (.text 200 (target ++ " was deleted."), newStore)

/-- The $push update of the favorites POST route. -/
def pushFavorite (movieId : String) (u : User) : User :=
  { u with FavoriteMovies := u.FavoriteMovies ++ [movieId] }

/-- The $pull update of the favorites DELETE route: every occurrence of the
movie id is removed. -/
def pullFavorite (movieId : String) (u : User) : User :=
  { u with FavoriteMovies := u.FavoriteMovies.filter (fun m => m != movieId) }

/-- POST /users/:Username/movies/:MovieID handler: findOneAndUpdate with
$push on the target Username; 200 with the updated document or 404. The
authenticated user is in scope as req.user but never read. -/
def addFavoriteHandler (authedUser : User) (store : List User)
    (target movieId : String) : ApiResponse × List User :=
  match findOneAndUpdate (fun u => u.Username == target) (pushFavorite movieId) store with
  | (some updatedUser, newStore) => (.jsonUser 200 updatedUser, newStore)
  | (none, newStore) => (.text 404 "User not found", newStore)

/-- DELETE /users/:Username/movies/:MovieID handler: findOneAndUpdate with
$pull on the target Username; 200 with the updated document or 404. The
authenticated user is in scope as req.user but never read. -/
def removeFavoriteHandler (authedUser : User) (store : List User)
    (target movieId : String) : ApiResponse × List User :=
  match findOneAndUpdate (fun u => u.Username == target) (pullFavorite movieId) store with
  | (some updatedUser, newStore) => (.jsonUser 200 updatedUser, newStore)
  | (none, newStore) => (.text 404 "User not found", newStore)

/-- Fixture digest standing for a stored bcrypt output. -/
def aliceHash : String := "h-alice"

/-- Fixture user record. -/
def alice : User :=
  { _id := 1, Username := "alice", Password := aliceHash
    Email := "alice@example.com" }

/-- Second fixture user record. -/
def bob : User :=
  { _id := 2, Username := "bob", Password := "h-bob"
    Email := "bob@example.com" }

/-- Fixture comparison function standing for bcrypt.compareSync: accepts
exactly the password letmein against the fixture digest of alice. -/
def demoCompare : String → String → Bool :=
  fun password digest => password == "letmein" && digest == aliceHash

/-- Fixture request body for the PUT handler. -/
def putBody : RegisterBody :=
  { Username := "alice", Password := "plaintext-pw", Email := "alice@example.com" }

/-- Fixture request body for the registration handler. -/
def regBody : RegisterBody :=
  { Username := "carol", Password := "secretpw", Email := "carol@example.com" }

/-- All the usernames of the store are pairwise distinct, the uniqueness
invariant the spec states for the credential store. -/
def UsernamesUnique (store : List User) : Prop :=
  List.Pairwise (fun a b => a.Username ≠ b.Username) store

/-- Under the uniqueness invariant, the store lookup by Username returns a
record exactly when that record is in the store and carries the queried
Username. -/
theorem findOneByUsername_eq_some_iff (store : List User) (username : String)
    (huniq : UsernamesUnique store) (user : User) :
    findOneByUsername store username = some user ↔
      user ∈ store ∧ user.Username = username := by
  induction store with
  | nil => simp [findOneByUsername]
  | cons v rest ih =>
      rcases List.pairwise_cons.mp huniq with ⟨hv, hrest⟩
      by_cases hvu : v.Username = username
      · rw [findOneByUsername, List.find?_cons_of_pos _ (by simp [hvu])]
        constructor
        · intro h
          obtain rfl : v = user := by exact (Option.some.injEq _ _).mp h
          exact ⟨List.mem_cons_self _ _, hvu⟩
        · rintro ⟨hmem, hu⟩
          rcases List.mem_cons.mp hmem with rfl | hmem
          · rfl
          · exact absurd (hu.trans hvu.symm) (Ne.symm (hv user hmem))
      · rw [findOneByUsername, List.find?_cons_of_neg _ (by simp [hvu])]
        rw [show List.find? (fun u => u.Username == username) rest =
              findOneByUsername rest username from rfl, ih hrest]
        constructor
        · rintro ⟨hmem, hu⟩
          exact ⟨List.mem_cons_of_mem _ hmem, hu⟩
        · rintro ⟨hmem, hu⟩
          rcases List.mem_cons.mp hmem with rfl | hmem
          · exact absurd hu hvu
          · exact ⟨hmem, hu⟩

/-- Claim C1: for every login attempt the local strategy performs exactly
one store lookup and at most one password verification, returns Success
with the user exactly when a record with the attempted username is in the
store and bcrypt verification of the attempted password against its stored
digest succeeds, and returns the incorrect-password failure when the
record exists but verification fails. -/
theorem localStrategy_success_iff (bcryptCompareSync : String → String → Bool)
    (store : List User) (u p : String) (huniq : UsernamesUnique store) :
    (localStrategyTrace bcryptCompareSync store u p).1 =
        localStrategy bcryptCompareSync store u p ∧
    (localStrategyTrace bcryptCompareSync store u p).2.1 = 1 ∧
    (localStrategyTrace bcryptCompareSync store u p).2.2 ≤ 1 ∧
    (∀ user : User,
        localStrategy bcryptCompareSync store u p = StrategyResult.ok user ↔
          user ∈ store ∧ user.Username = u ∧
            validatePassword bcryptCompareSync user p = true) ∧
    (∀ user : User, user ∈ store → user.Username = u →
        validatePassword bcryptCompareSync user p = false →
          localStrategy bcryptCompareSync store u p =
            StrategyResult.fail incorrectPasswordMsg) := by
  have hfind := findOneByUsername_eq_some_iff store u huniq
  refine ⟨?_, ?_, ?_, ?_, ?_⟩
  · cases hlook : findOneByUsername store u with
    | none => simp [localStrategyTrace, localStrategy, localVerify, hlook]
    | some w =>
        by_cases hv : validatePassword bcryptCompareSync w p = false <;>
          simp [localStrategyTrace, localStrategy, localVerify, hlook, hv]
  · cases hlook : findOneByUsername store u with
    | none => simp [localStrategyTrace, hlook]
    | some w =>
        by_cases hv : validatePassword bcryptCompareSync w p = false <;>
          simp [localStrategyTrace, hlook, hv]
  · cases hlook : findOneByUsername store u with
    | none => simp [localStrategyTrace, hlook]
    | some w =>
        by_cases hv : validatePassword bcryptCompareSync w p = false <;>
          simp [localStrategyTrace, hlook, hv]
  · intro user
    cases hlook : findOneByUsername store u with
    | none =>
        simp only [localStrategy, localVerify, hlook]
        constructor
        · intro h
          cases h
        · rintro ⟨hmem, hu, _⟩
          have heq := (hfind user).mpr ⟨hmem, hu⟩
          rw [hlook] at heq
          cases heq
    | some w =>
        have hw := (hfind w).mp hlook
        by_cases hv : validatePassword bcryptCompareSync w p = false
        · simp only [localStrategy, localVerify, hlook, if_pos hv]
          constructor
          · intro h
            cases h
          · rintro ⟨hmem, hu, hval⟩
            have heq := (hfind user).mpr ⟨hmem, hu⟩
            rw [hlook] at heq
            obtain rfl := Option.some.inj heq
            rw [hval] at hv
            cases hv
        · simp only [localStrategy, localVerify, hlook, if_neg hv]
          constructor
          · intro h
            obtain rfl := StrategyResult.ok.inj h
            refine ⟨hw.1, hw.2, ?_⟩
            cases hb : validatePassword bcryptCompareSync w p with
            | false => exact absurd hb hv
            | true => rfl
          · rintro ⟨hmem, hu, hval⟩
            have heq := (hfind user).mpr ⟨hmem, hu⟩
            rw [hlook] at heq
            obtain rfl := Option.some.inj heq
            rfl
  · intro user hmem hu hval
    have huser : findOneByUsername store u = some user := (hfind user).mpr ⟨hmem, hu⟩
    simp [localStrategy, localVerify, huser, hval]

/-- Witness for claim C1, at the fixture store and comparison function. -/
theorem localStrategy_success_iff_witness :
    UsernamesUnique [alice, bob] ∧
    ((localStrategyTrace demoCompare [alice, bob] "alice" "letmein").1 =
        localStrategy demoCompare [alice, bob] "alice" "letmein" ∧
    (localStrategyTrace demoCompare [alice, bob] "alice" "letmein").2.1 = 1 ∧
    (localStrategyTrace demoCompare [alice, bob] "alice" "letmein").2.2 ≤ 1 ∧
    (∀ user : User,
        localStrategy demoCompare [alice, bob] "alice" "letmein" =
            StrategyResult.ok user ↔
          user ∈ [alice, bob] ∧ user.Username = "alice" ∧
            validatePassword demoCompare user "letmein" = true) ∧
    (∀ user : User, user ∈ [alice, bob] → user.Username = "alice" →
        validatePassword demoCompare user "letmein" = false →
          localStrategy demoCompare [alice, bob] "alice" "letmein" =
            StrategyResult.fail incorrectPasswordMsg)) :=
  ⟨by simp [UsernamesUnique, alice, bob],
   localStrategy_success_iff demoCompare [alice, bob] "alice" "letmein"
     (by simp [UsernamesUnique, alice, bob])⟩

/-- Claim C2: at a concrete store holding alice with a wrong password, the
strategy classifies the attempt as the incorrect-password failure with the
message of passport.js, yet the endpoint answers 400 with the generic body
because auth.js compares info.message against the literal without the
trailing period and the dedicated branch never fires. -/
theorem login_wrong_password_generic_response :
    localStrategy demoCompare [alice] "alice" "wrongpw" =
        StrategyResult.fail incorrectPasswordMsg ∧
    loginRoute demoCompare [alice] 0 "alice" "wrongpw" =
        LoginResponse.msg 400 "Something is not right" ∧
    "Something is not right" ≠ incorrectPasswordMsg := by decide

/-- Claim C3 counterexample: at a concrete store not containing the
attempted username, the strategy returns the combined-message failure and
the endpoint answers 400 with the generic body, which is neither the
User not found literal of the dead auth.js branch nor the message the
strategy produced. -/
theorem login_unknown_user_counterexample :
    localStrategy demoCompare [alice] "ghost" "x" =
        StrategyResult.fail incorrectUsernameMsg ∧
    loginRoute demoCompare [alice] 0 "ghost" "x" =
        LoginResponse.msg 400 "Something is not right" ∧
    "Something is not right" ≠ "User not found" ∧
    "Something is not right" ≠ incorrectUsernameMsg := by decide

/-- Claim C3 as amended: whenever the attempted username is absent from
the store, the local strategy returns a failure outcome, with the combined
incorrect-username-or-password message and without raising, and the login
endpoint answers HTTP 400 with the generic message, the User not found
branch of auth.js being dead. -/
theorem login_unknown_user_amended (bcryptCompareSync : String → String → Bool)
    (store : List User) (now : Nat) (u p : String)
    (habsent : findOneByUsername store u = none) :
    localStrategy bcryptCompareSync store u p =
        StrategyResult.fail incorrectUsernameMsg ∧
    loginRoute bcryptCompareSync store now u p =
        LoginResponse.msg 400 "Something is not right" := by
  have hstrat : localStrategy bcryptCompareSync store u p =
      StrategyResult.fail incorrectUsernameMsg := by
    simp [localStrategy, localVerify, habsent]
  refine ⟨hstrat, ?_⟩
  unfold loginRoute
  rw [hstrat]
  rfl

/-- Witness for the amended claim C3, at the fixture store. -/
theorem login_unknown_user_amended_witness :
    findOneByUsername [alice] "ghost" = none ∧
    (localStrategy demoCompare [alice] "ghost" "x" =
        StrategyResult.fail incorrectUsernameMsg ∧
     loginRoute demoCompare [alice] 0 "ghost" "x" =
        LoginResponse.msg 400 "Something is not right") :=
  ⟨by decide, login_unknown_user_amended demoCompare [alice] 0 "ghost" "x" (by decide)⟩

/-- Claim C7: with correct fixture credentials the whole login flow ends in
a crash rather than a response, because on success passport passes no info
argument and the opening console.log of auth.js dereferences info.message;
the same happens when the strategy reports a store error; only the
classified failures, which carry an info object, always get an HTTP
response. -/
theorem login_success_and_store_error_crash :
    loginRoute demoCompare [alice] 0 "alice" "letmein" = LoginResponse.crash ∧
    loginHandler 0 (localVerify demoCompare (Except.error "ECONNREFUSED") "letmein") =
        LoginResponse.crash ∧
    (∀ m : String, loginHandler 0 (StrategyResult.fail m) ≠ LoginResponse.crash) := by
  refine ⟨by decide, rfl, ?_⟩
  intro m
  unfold loginHandler loginResponder
  simp only [Option.isSome_none, Option.isNone_none, Bool.false_or, if_true]
  split
  · simp
  · split <;> simp

/-- Claim C4: the token issued over user.toJSON() is signed with HS256 and
the fixed secret, its subject is the Username of the user, its expiry is
issuance time plus seven days, and its claims are the full user record,
the stored Password digest included. -/
theorem generateJWTToken_spec (user : User) (now : Nat) :
    (generateJWTToken (User.toJSON user) now).alg = "HS256" ∧
    (generateJWTToken (User.toJSON user) now).secret = "your_jwt_secret" ∧
    (generateJWTToken (User.toJSON user) now).sub = user.Username ∧
    (generateJWTToken (User.toJSON user) now).iat = now ∧
    (generateJWTToken (User.toJSON user) now).exp = now + 7 * 24 * 60 * 60 ∧
    (generateJWTToken (User.toJSON user) now).payload = user ∧
    (generateJWTToken (User.toJSON user) now).payload.Password = user.Password :=
  ⟨rfl, rfl, rfl, rfl, rfl, rfl, rfl⟩

/-- Claim C5: a bearer token issued over a stored user and presented before
its expiry passes verification with the same secret and resolves through
Users.findById on the embedded _id claim to a record with the same id. -/
theorem bearer_roundtrip (store : List User) (user : User) (now t : Nat)
    (hmem : user ∈ store) (ht : t < now + sevenDaysSeconds) :
    ∃ u : User,
      jwtStrategyAuthenticate store (generateJWTToken (User.toJSON user) now) t =
          BearerOutcome.success u ∧
      u._id = user._id := by
  have hver : jwtVerify (generateJWTToken (User.toJSON user) now) jwtSecret t =
      some user := by
    simp [jwtVerify, generateJWTToken, User.toJSON, ht]
  have hsome : (List.find? (fun u2 => u2._id == user._id) store).isSome := by
    rw [List.find?_isSome]
    exact ⟨user, hmem, by simp⟩
  obtain ⟨w, hw⟩ := Option.isSome_iff_exists.mp hsome
  have hwid : w._id = user._id := by
    have hp := List.find?_some hw
    simpa using hp
  refine ⟨w, ?_, hwid⟩
  have hfindw : findById store user._id = some w := hw
  unfold jwtStrategyAuthenticate
  rw [hver]
  simp only [jwtVerifyCallback, passportInterpret, hfindw]

/-- Witness for claim C5, at the fixture store. -/
theorem bearer_roundtrip_witness :
    alice ∈ [alice, bob] ∧ (0 : Nat) < 0 + sevenDaysSeconds ∧
    (∃ u : User,
      jwtStrategyAuthenticate [alice, bob] (generateJWTToken (User.toJSON alice) 0) 0 =
          BearerOutcome.success u ∧
      u._id = alice._id) :=
  ⟨by decide, by decide, bearer_roundtrip [alice, bob] alice 0 0 (by decide) (by decide)⟩

/-- Claim C6: a token whose signature and expiry check out but whose
embedded _id claim matches no record makes the bearer strategy answer the
401 failure, never success and never an error. -/
theorem bearer_missing_record (store : List User) (token : JwtToken) (now : Nat)
    (hsig : token.secret = jwtSecret) (hexp : now < token.exp)
    (habsent : findById store token.payload._id = none) :
    jwtStrategyAuthenticate store token now = BearerOutcome.unauthorized ∧
    (∀ u : User, jwtStrategyAuthenticate store token now ≠ BearerOutcome.success u) ∧
    (∀ e : String, jwtStrategyAuthenticate store token now ≠ BearerOutcome.error e) := by
  have hver : jwtVerify token jwtSecret now = some token.payload := by
    simp [jwtVerify, hsig, hexp]
  have h : jwtStrategyAuthenticate store token now = BearerOutcome.unauthorized := by
    simp [jwtStrategyAuthenticate, hver, jwtVerifyCallback, passportInterpret, habsent]
  refine ⟨h, ?_, ?_⟩
  · intro u hu
    rw [h] at hu
    cases hu
  · intro e he
    rw [h] at he
    cases he

/-- Witness for claim C6: a fresh token for alice presented against a store
holding only bob. -/
theorem bearer_missing_record_witness :
    ((generateJWTToken (User.toJSON alice) 0).secret = jwtSecret ∧
     (0 : Nat) < (generateJWTToken (User.toJSON alice) 0).exp ∧
     findById [bob] (generateJWTToken (User.toJSON alice) 0).payload._id = none) ∧
    (jwtStrategyAuthenticate [bob] (generateJWTToken (User.toJSON alice) 0) 0 =
        BearerOutcome.unauthorized ∧
     (∀ u : User,
        jwtStrategyAuthenticate [bob] (generateJWTToken (User.toJSON alice) 0) 0 ≠
          BearerOutcome.success u) ∧
     (∀ e : String,
        jwtStrategyAuthenticate [bob] (generateJWTToken (User.toJSON alice) 0) 0 ≠
          BearerOutcome.error e)) :=
  ⟨⟨rfl, by decide, by decide⟩,
   bearer_missing_record [bob] (generateJWTToken (User.toJSON alice) 0) 0 rfl
     (by decide) (by decide)⟩

/-- Claim C8: registration stores the bcrypt-derived digest, but the PUT
/users/:Username handler of the claimed routes, evaluated at a concrete
authorised request, writes the submitted password verbatim into the
Password field: its hashing call is commented out and the $set document
carries req.body.Password. -/
theorem put_user_stores_plaintext (bcryptHashSync : String → Nat → String) :
    ((registerHandler bcryptHashSync [] regBody true 3).2.map
        (fun u => u.Password) = [usersHashedPassword bcryptHashSync "secretpw"]) ∧
    ((putUserHandler alice [alice] "alice" putBody true).2.map
        (fun u => u.Password) = ["plaintext-pw"]) ∧
    (putUserHandler alice [alice] "alice" putBody true).1 =
        ApiResponse.jsonUser 200 (setUserFields putBody alice) ∧
    putBody.Password = "plaintext-pw" := by
  refine ⟨rfl, by decide, by decide, rfl⟩

/-- Claim C9: the GET /users route is registered without authentication
middleware, and on a successful store lookup the handler answers 201 with
the stored document list verbatim, so every Password digest of the store
is in the body. -/
theorem get_users_no_auth_full_list :
    getUsersRoute.usesJwtAuth = false ∧
    (∀ users : List User,
        getUsersHandler (Except.ok users) = ApiResponse.jsonUsers 201 users) ∧
    (∀ users : List User, ∀ u : User, u ∈ users →
        ∃ l : List User, getUsersHandler (Except.ok users) =
            ApiResponse.jsonUsers 201 l ∧ u ∈ l ∧ u.Password ∈ l.map
              (fun v => v.Password)) := by
  refine ⟨rfl, fun _ => rfl, ?_⟩
  intro users u hu
  exact ⟨users, rfl, hu, List.mem_map.mpr ⟨u, hu, rfl⟩⟩

/-- Claim C10: the delete-user and both favorites handlers yield the same
response and the same mutated store whatever authenticated user presented
the token, while the PUT handler answers 401 and leaves the store intact
whenever the authenticated Username differs from the target. -/
theorem mutation_routes_ignore_authed_user :
    (∀ a1 a2 : User, ∀ store : List User, ∀ target : String,
        deleteUserHandler a1 store target = deleteUserHandler a2 store target) ∧
    (∀ a1 a2 : User, ∀ store : List User, ∀ target movieId : String,
        addFavoriteHandler a1 store target movieId =
          addFavoriteHandler a2 store target movieId) ∧
    (∀ a1 a2 : User, ∀ store : List User, ∀ target movieId : String,
        removeFavoriteHandler a1 store target movieId =
          removeFavoriteHandler a2 store target movieId) ∧
    (deleteUserRoute.usesJwtAuth = true ∧ addFavoriteRoute.usesJwtAuth = true ∧
      removeFavoriteRoute.usesJwtAuth = true ∧ putUserRoute.usesJwtAuth = true) ∧
    (∀ authed : User, ∀ store : List User, ∀ target : String, ∀ body : RegisterBody,
        authed.Username ≠ target →
          putUserHandler authed store target body true =
            (ApiResponse.text 401 "Unauthorized", store)) := by
  refine ⟨fun _ _ _ _ => rfl, fun _ _ _ _ _ => rfl, fun _ _ _ _ _ => rfl,
    ⟨rfl, rfl, rfl, rfl⟩, ?_⟩
  intro authed store target body hne
  unfold putUserHandler
  rw [if_neg (by simp), if_pos hne]

/-- Witness for claim C10, at the fixture users and store. -/
theorem mutation_routes_ignore_authed_user_witness :
    deleteUserHandler alice [alice, bob] "bob" =
        deleteUserHandler bob [alice, bob] "bob" ∧
    addFavoriteHandler alice [alice, bob] "bob" "m1" =
        addFavoriteHandler bob [alice, bob] "bob" "m1" ∧
    removeFavoriteHandler alice [alice, bob] "bob" "m1" =
        removeFavoriteHandler bob [alice, bob] "bob" "m1" ∧
    (alice.Username ≠ "bob" ∧
      putUserHandler alice [alice, bob] "bob" putBody true =
        (ApiResponse.text 401 "Unauthorized", [alice, bob])) := by
  obtain ⟨h1, h2, h3, _, h5⟩ := mutation_routes_ignore_authed_user
  exact ⟨h1 alice bob [alice, bob] "bob", h2 alice bob [alice, bob] "bob" "m1",
    h3 alice bob [alice, bob] "bob" "m1",
    by decide, h5 alice [alice, bob] "bob" putBody (by decide)⟩

/-- Witness for claim C9, at the fixture store. -/
theorem get_users_no_auth_full_list_witness :
    alice ∈ [alice, bob] ∧
    (∃ l : List User, getUsersHandler (Except.ok [alice, bob]) =
        ApiResponse.jsonUsers 201 l ∧ alice ∈ l ∧
        alice.Password ∈ l.map (fun v => v.Password)) := by
  obtain ⟨-, -, h3⟩ := get_users_no_auth_full_list
  exact ⟨by decide, h3 [alice, bob] alice (by decide)⟩
